import Mathlib

/-!
Shallow embedding of `src/glances/plugins/glances_octoprint.py` (the
Octoprint status plugin) and proofs about its behaviour.

The plugin has three parts:
* `Plugin.__init__` — configuration resolution (host/port/API key, the two
  endpoint URLs), embedded here as `plugin_init`;
* `Plugin.update` — one poll: two HTTP GETs turned into a status record,
  embedded as `update` over abstract fetch results;
* `Plugin.msg_curse` — rendering of a status record into curse display
  items, embedded as `msg_curse`.

Python runtime values that flow through the plugin (JSON-decoded response
bodies, YAML-decoded config data, dict entries) are modelled by the
inductive `Json`; Python dicts keep insertion order, modelled as
association lists.  Operations that can raise (dict subscription on a
missing key, `int()` on a non-number, a negative width in `str.format`)
return `Except String _`.
-/

namespace Octoprint

/-- Model of a Python value as produced by `json`/`yaml` decoding:
`None`, a number (int or float, modelled exactly as a rational), a string,
or a dict (insertion-ordered association list).  Lists and booleans do not
occur in any code path the claims exercise and are omitted. -/
inductive Json where
  | null : Json
  | num (q : Rat) : Json
  | str (s : String) : Json
  | obj (fields : List (String × Json)) : Json

/-- First binding of a key in an association list (Python dicts have unique
keys, so first match is the dict lookup). -/
def lookupField : List (String × Json) → String → Option Json
  | [], _ => none
  | (k, v) :: rest, key => if k = key then some v else lookupField rest key

/-- Python subscription `value[key]`: `KeyError` when the dict lacks the
key, `TypeError` when the value is not a dict. -/
def Json.get : Json → String → Except String Json
  | .obj fields, key =>
      match lookupField fields key with
      | some v => .ok v
      | none => .error ("KeyError: " ++ key)
  | _, key => .error ("TypeError: not subscriptable: " ++ key)

/-- Python `int(x)` truncates a float toward zero; on a rational q this is
T-division of numerator by denominator. -/
def pyTrunc (q : Rat) : Int := q.num.tdiv (q.den : Int)

/-- Python `int(x)` applied to a JSON-decoded value.  Every value the
claims exercise is a number; other runtime types raise `TypeError`
(numeric strings, which Python would convert, are not modelled as no
claim exercises them). -/
def pyIntOfJson : Json → Except String Int
  | .num q => .ok (pyTrunc q)
  | _ => .error "TypeError: int() argument"

/-- Python `str(x)` / f-string interpolation for the values the plugin
stringifies.  Only `.str` (the job state) and `.null` reach this in the
code paths the claims exercise; the numeric and dict cases are
placeholders never evaluated by any theorem below. -/
def Json.pyStr : Json → String
  | .null => "None"
  | .str s => s
  | .num q => toString q
  | .obj _ => "dict"

/-- Python truthiness of the `api_key` attribute (`if not self.api_key:`),
where `none` is Python `None`. -/
def jsonFalsy : Option Json → Bool
  | none => true
  | some .null => true
  | some (.str s) => s.isEmpty
  | some (.num q) => decide (q = 0)
  | some (.obj l) => l.isEmpty

/-- Whether the first list is an initial segment of the second. -/
def startsWithChars : List Char → List Char → Bool
  | [], _ => true
  | _ :: _, [] => false
  | p :: ps, c :: cs => p == c && startsWithChars ps cs

/-- Whether the pattern occurs as a contiguous run inside the list. -/
def containsChars (s pat : List Char) : Bool :=
  match s with
  | [] => startsWithChars pat []
  | _ :: rest => startsWithChars pat s || containsChars rest pat

/-- Python `"http" in self.host`: substring containment. -/
def strContainsHttp (s : String) : Bool := containsChars s.data "http".data

/-- Modelled from the spec: a host string "carries a scheme" when it
starts with an explicit scheme token `http://` or `https://`.  This
definition follows the spec's words and exists only to state claim C1
about hosts lacking a scheme; the source itself never checks this. -/
def hasUrlScheme (s : String) : Bool :=
  startsWithChars "http://".data s.data || startsWithChars "https://".data s.data

/-! ## Configuration resolution (`Plugin.__init__`, lines 42-69) -/

/-- The values the `octoprint` section of the application config yields:
`conf.get_value(section="octoprint", option=..., default=...)` already
resolved (glances' `Config.get_value` substitutes the stated default when
the option is missing, so fields hold the returned value). -/
structure OctoSection where
  host : String
  port : String
  api_key : Option String

/-- The connection state `__init__` leaves on the plugin object. -/
structure PluginConfig where
  host : String
  port : String
  api_key : Option Json
  printer_url : String
  job_url : String
  header_key : Option Json

/-- Lines 57-63: when the config-file key is falsy, consult the per-user
file `<home>/.octoprint/config.yaml`; `localYaml = none` models
`os.path.isfile` returning false, `some data` models the decoded YAML.
When the file exists the code evaluates `data["api"]["key"]`
unconditionally. -/
def readLocalKey (api_key : Option Json) (localYaml : Option Json) :
    Except String (Option Json) :=
  if jsonFalsy api_key then
    match localYaml with
    | none => .ok api_key
    | some data =>
      match data.get "api" with
      | .error e => .error e
      | .ok api =>
        match api.get "key" with
        | .error e => .error e
        | .ok key => .ok (some key)
  else .ok api_key

/-- `Plugin.__init__` configuration resolution.  `sec = none` models
`conf.has_section("octoprint")` returning false (the source's int default
`5000` for the port formats identically to the string `"5000"` in the URL
f-strings, so the port is carried as a string). -/
def plugin_init (sec : Option OctoSection) (localYaml : Option Json) :
    Except String PluginConfig :=
  let host := match sec with | some s => s.host | none => "http://0.0.0.0"
  let port := match sec with | some s => s.port | none => "5000"
  let api_key : Option Json :=
    match sec with | some s => s.api_key.map Json.str | none => none
  match readLocalKey api_key localYaml with
  | .error e => .error e
  | .ok api_key =>
    let host := if strContainsHttp host then host else "http://" ++ host
    .ok { host := host, port := port, api_key := api_key,
          printer_url := host ++ ":" ++ port ++ "/api/printer",
          job_url := host ++ ":" ++ port ++ "/api/job",
          header_key := api_key }

/-! ## One poll (`Plugin.update`, lines 73-100) -/

/-- An HTTP response as the plugin reads it: `status_code`, raw `text`,
and `body`, the value `Response.json()` would decode from that text. -/
structure Response where
  status_code : Nat
  text : String
  body : Json

/-- The status record of one poll: the keys `update` can set on the stats
dict; `none` means the key is absent from the dict. -/
structure Stats where
  state : Option Json := none
  error : Option String := none
  estimatedPrintTime : Option Json := none
  progress_printTime : Option Json := none
  progress_printTimeLeft : Option Json := none
  temperature : Option Json := none

/-- `GlancesPlugin.get_init_value` returns a fresh copy of the init value,
an empty dict. -/
def get_init_value : Stats := {}

/-- `Plugin.update`: each argument is the outcome of one `requests.get`
(`.error e` models a raised exception with message `str(e)`; when the
printer request raises, the source never issues the job request, matching
this model which then ignores the second argument). -/
def update (printer_res job_res : Except String Response) :
    Except String Stats :=
  match printer_res with
  | .error e =>
      .ok { get_init_value with
            state := some (.str "Error"),
            error := some ("Unable to connect: " ++ e) }
  | .ok printer =>
    match job_res with
    | .error e =>
        .ok { get_init_value with
              state := some (.str "Error"),
              error := some ("Unable to connect: " ++ e) }
    | .ok job =>
      if printer.status_code ≠ 200 then
        .ok { get_init_value with
              state := some (.str "Error"),
              error := some printer.text }
      else do
        let jobObj ← job.body.get "job"
        let ept ← jobObj.get "estimatedPrintTime"
        let prog ← job.body.get "progress"
        let pt ← prog.get "printTime"
        let prog2 ← job.body.get "progress"
        let ptl ← prog2.get "printTimeLeft"
        let st ← job.body.get "state"
        let temp ← printer.body.get "temperature"
        .ok { get_init_value with
              estimatedPrintTime := some ept,
              progress_printTime := some pt,
              progress_printTimeLeft := some ptl,
              state := some st,
              temperature := some temp }

/-! ## Rendering (`Plugin.msg_curse`, lines 107-165) -/

/-- Two-digit zero-padded minutes/seconds field of Python's
`datetime.timedelta.__str__`. -/
def twoDigits (n : Nat) : String :=
  if n < 10 then "0" ++ toString n else toString n

/-- Python `str(datetime.timedelta(seconds=n))`: the constructor
normalises with floor division into days plus a remainder in [0, 86400),
and the string is `h:mm:ss`, prefixed by the day count (pluralised unless
its absolute value is 1) when it is non-zero. -/
def strTimedelta (n : Int) : String :=
  let days := n.ediv 86400
  let rem := (n.emod 86400).toNat
  let h := rem / 3600
  let m := rem % 3600 / 60
  let s := rem % 60
  let hms := toString h ++ ":" ++ twoDigits m ++ ":" ++ twoDigits s
  if days = 0 then hms
  else if days = 1 ∨ days = -1 then toString days ++ " day, " ++ hms
  else toString days ++ " days, " ++ hms

/-- Left-justified space padding to a minimum width (the behaviour of a
string `format` field with a non-negative width and no alignment flag). -/
def padSpaces (s : String) (w : Nat) : String :=
  s ++ String.mk (List.replicate (w - s.length) ' ')

/-- Python `str.format` of a string with a dynamic width: a negative
width injects a minus sign into the format spec, which raises
`ValueError` (sign is not allowed in a string format spec); otherwise
the string is left-justified and space-padded to the width. -/
def padTo (s : String) (width : Int) : Except String String :=
  if width < 0 then
    .error "ValueError: Sign not allowed in string format specifier"
  else .ok (padSpaces s width.toNat)

/-- Right alignment to a literal minimum width (format fields with `>3`
and `>6` in the source). -/
def alignRight (s : String) (w : Nat) : String :=
  String.mk (List.replicate (w - s.length) ' ') ++ s

/-- Python `str(x)` for the loop-local optional ints. -/
def optIntStr : Option Int → String
  | none => "None"
  | some i => toString i

/-- Python `str(x)` for the optional duration strings. -/
def optStrStr : Option String → String
  | none => "None"
  | some s => s

/-- One item of the curse message list: a text item with its decoration,
or a line-break marker (`curse_new_line`). -/
inductive CurseItem where
  | line (msg : String) (deco : String) : CurseItem
  | newline : CurseItem
deriving DecidableEq, Repr

/-- `GlancesPlugin.curse_add_line(msg, decoration)`; calls in the source
that omit the decoration use the base-class default `"DEFAULT"`, passed
explicitly here. -/
def curse_add_line (msg deco : String) : CurseItem := .line msg deco

/-- `GlancesPlugin.curse_new_line()`. -/
def curse_new_line : CurseItem := .newline

/-- Whether an item is a text item (as opposed to a line break). -/
def CurseItem.isTextLine : CurseItem → Bool
  | .line _ _ => true
  | .newline => false

/-- `Plugin.msg_curse`: `disabled` models `self.is_disable()`, `stats`
models `self.stats` where `none` is a falsy (empty) stats dict, and
`max_width` the caller-supplied width.  Item accesses on the stats dict
and dynamic-width formats raise through the `Except` monad exactly where
the Python raises, in the source's evaluation order. -/
def msg_curse (disabled : Bool) (stats : Option Stats) (max_width : Int) :
    Except String (List CurseItem) :=
  match stats with
  | none => .ok []
  | some st =>
    if disabled then .ok []
    else do
      let nmw := max_width - 11
      let stateVal ← match st.state with
        | some v => Except.ok v
        | none => Except.error "KeyError: state"
      let title ← padTo ("OCTOPRINT " ++ stateVal.pyStr) nmw
      let ret := [curse_add_line title "TITLE", curse_new_line]
      match st.error with
      | some err => do
        let emsg ← padTo err nmw
        Except.ok (ret ++ [curse_add_line emsg "DEFAULT"])
      | none => do
        let tmsg ← padTo "Temperature" nmw
        let ret := ret ++ [curse_add_line tmsg "DEFAULT"]
        let nmw2 := max_width - 10
        let ret := ret ++ [curse_add_line "actual target" "DEFAULT",
          curse_new_line]
        let temps ← match st.temperature with
          | some (Json.obj fields) => Except.ok fields
          | some _ => Except.error "TypeError: iterating a non-dict"
          | none => Except.error "KeyError: temperature"
        let ret ← temps.foldlM (fun acc kv => do
          let tool := kv.2
          let actualJ ← tool.get "actual"
          let actual : Option Int ← match actualJ with
            | Json.null => Except.ok none
            | v => do
              let i ← pyIntOfJson v
              Except.ok (some i)
          let targetJ ← tool.get "target"
          let target : Option Int ← match targetJ with
            | Json.null => Except.ok none
            | v => do
              let i ← pyIntOfJson v
              Except.ok (some i)
          let keyMsg ← padTo kv.1 nmw2
          let row := alignRight (optIntStr actual) 3 ++ "°C  " ++
            alignRight (optIntStr target) 3 ++ "°C"
          Except.ok (acc ++ [curse_add_line keyMsg "DEFAULT",
            curse_add_line row "DEFAULT", curse_new_line])) ret
        let nmw3 := max_width - 5
        let ptV ← match st.progress_printTime with
          | some v => Except.ok v
          | none => Except.error "KeyError: progress_printTime"
        let actualD : Option String ← match ptV with
          | Json.null => Except.ok none
          | v => do
            let i ← pyIntOfJson v
            Except.ok (some (strTimedelta i))
        let ptlV ← match st.progress_printTimeLeft with
          | some v => Except.ok v
          | none => Except.error "KeyError: progress_printTimeLeft"
        let targetD : Option String ← match ptlV with
          | Json.null => Except.ok none
          | v => do
            let i ← pyIntOfJson v
            Except.ok (some (strTimedelta i))
        let pmsg ← padTo "Time passed:" nmw3
        let ret := ret ++ [curse_add_line pmsg "DEFAULT",
          curse_add_line (alignRight (optStrStr actualD) 6) "DEFAULT",
          curse_new_line]
        let lmsg ← padTo "Time left:" nmw3
        Except.ok (ret ++ [curse_add_line lmsg "DEFAULT",
          curse_add_line (alignRight (optStrStr targetD) 6) "DEFAULT"])

/-- The plugin object state visible to `msg_curse`: the disable flag and
the current stats dict. -/
structure PluginView where
  is_disabled : Bool
  stats : Option Stats

/-- One call of `msg_curse` on the plugin object: the method body contains
no assignment to `self` or to an entry of the stats dict, so the object
state after the call is the state before it. -/
def msg_curse_call (p : PluginView) (max_width : Int) :
    Except String (List CurseItem) × PluginView :=
  (msg_curse p.is_disabled p.stats max_width, p)

/-! ## Concrete inputs used by witnesses and counterexamples -/

/-- A well-formed printer-endpoint response: HTTP 200 with one tool at
actual 200.4 (the rational 1002/5) and target 210. -/
def printerOkResp : Response :=
  ⟨200, "printer-body",
   .obj [("temperature", .obj [("tool0",
     .obj [("actual", .num (mkRat 1002 5)), ("target", .num 210)])])]⟩

/-- A well-formed job-endpoint response. -/
def jobOkResp : Response :=
  ⟨200, "job-body",
   .obj [("job", .obj [("estimatedPrintTime", .num 5000)]),
         ("progress", .obj [("printTime", .num 3661),
                            ("printTimeLeft", .num 120)]),
         ("state", .str "Printing")]⟩

/-- The error record the poll produces for an HTTP 500 with body
`server down`. -/
def errStats500 : Stats :=
  ⟨some (.str "Error"), some "server down", none, none, none, none⟩

/-- A healthy status record with one tool (actual 200.4, target 210),
elapsed 3661 s and remaining 120 s. -/
def healthyStats : Stats :=
  ⟨some (.str "Printing"), none, some (.num 5000), some (.num 3661),
   some (.num 120),
   some (.obj [("tool0",
     .obj [("actual", .num (mkRat 1002 5)), ("target", .num 210)])])⟩

/-! ## Helper lemmas -/

/-- When the per-user config file does not exist, the API key is returned
unchanged (the truthiness test makes no difference). -/
theorem readLocalKey_none (k : Option Json) : readLocalKey k none = .ok k := by
  unfold readLocalKey
  split <;> rfl

/-- Binding a success just applies the continuation. -/
@[simp] theorem exceptBind_ok {α β : Type} (a : α)
    (f : α → Except String β) :
    (Except.ok a : Except String α) >>= f = f a := rfl

/-- Binding a failure short-circuits. -/
@[simp] theorem exceptBind_error {α β : Type} (e : String)
    (f : α → Except String β) :
    (Except.error e : Except String α) >>= f = Except.error e := rfl

/-! ## The claims -/

/-- C1, counterexample: the host `octohttp.local` carries no scheme, yet
configuration resolution leaves it unchanged (it contains `http` as a
substring), so the resolved host does not begin with `http://`. -/
theorem C1_counterexample :
    hasUrlScheme "octohttp.local" = false ∧
    plugin_init (some ⟨"octohttp.local", "5000", some "k"⟩) none =
      .ok ⟨"octohttp.local", "5000", some (.str "k"),
           "octohttp.local:5000/api/printer",
           "octohttp.local:5000/api/job", some (.str "k")⟩ ∧
    startsWithChars "http://".data "octohttp.local".data = false := by
  refine ⟨by decide, rfl, by decide⟩

/-- C1 (amended): the `http://` prefix is added exactly when `http` does
not occur as a substring of the configured host; in that case the
resolved host is `http://` followed by the input, and the two endpoint
URLs are the resolved host concatenated with `:port/api/printer` and
`:port/api/job`.  A host already containing `http` is left unchanged. -/
theorem C1_scheme_substring (h h2 p : String) (k : Option String)
    (hh : strContainsHttp h = false) (hh2 : strContainsHttp h2 = true) :
    plugin_init (some ⟨h, p, k⟩) none =
      .ok ⟨"http://" ++ h, p, k.map Json.str,
           "http://" ++ h ++ ":" ++ p ++ "/api/printer",
           "http://" ++ h ++ ":" ++ p ++ "/api/job", k.map Json.str⟩ ∧
    plugin_init (some ⟨h2, p, k⟩) none =
      .ok ⟨h2, p, k.map Json.str,
           h2 ++ ":" ++ p ++ "/api/printer",
           h2 ++ ":" ++ p ++ "/api/job", k.map Json.str⟩ := by
  constructor <;> simp [plugin_init, readLocalKey_none, hh, hh2]

/-- C1, witness: the theorem applied at the default host `0.0.0.0` and a
host containing `http`. -/
theorem C1_witness :
    plugin_init (some ⟨"0.0.0.0", "5000", some "k"⟩) none =
      .ok ⟨"http://" ++ "0.0.0.0", "5000", some (.str "k"),
           "http://" ++ "0.0.0.0" ++ ":" ++ "5000" ++ "/api/printer",
           "http://" ++ "0.0.0.0" ++ ":" ++ "5000" ++ "/api/job",
           some (.str "k")⟩ ∧
    plugin_init (some ⟨"http://box", "5000", some "k"⟩) none =
      .ok ⟨"http://box", "5000", some (.str "k"),
           "http://box" ++ ":" ++ "5000" ++ "/api/printer",
           "http://box" ++ ":" ++ "5000" ++ "/api/job", some (.str "k")⟩ :=
  C1_scheme_substring "0.0.0.0" "http://box" "5000" (some "k")
    (by decide) (by decide)

/-- C2, counterexample: the per-user config file exists but lacks the
`api` entry (so the `api.key` entry is absent); the code raises
`KeyError` instead of leaving the API key empty. -/
theorem C2_counterexample :
    plugin_init (some ⟨"0.0.0.0", "5000", none⟩) (some (.obj [])) =
      .error "KeyError: api" := rfl

/-- C2 (amended): when no API key was obtained from the application
config, absence of the per-user file leaves the API key unchanged without
error, but if the file exists its `api.key` entry is read
unconditionally: a file without `api`, or with `api` but without `key`,
raises a `KeyError` out of configuration resolution. -/
theorem C2_local_key_fallback (sec : OctoSection)
    (d d2 : List (String × Json))
    (hk : jsonFalsy (sec.api_key.map Json.str) = true)
    (hd : lookupField d "api" = none)
    (hd2 : lookupField d2 "key" = none) :
    plugin_init (some sec) none =
      .ok ⟨if strContainsHttp sec.host then sec.host
             else "http://" ++ sec.host, sec.port, sec.api_key.map Json.str,
           (if strContainsHttp sec.host then sec.host
             else "http://" ++ sec.host) ++ ":" ++ sec.port ++ "/api/printer",
           (if strContainsHttp sec.host then sec.host
             else "http://" ++ sec.host) ++ ":" ++ sec.port ++ "/api/job",
           sec.api_key.map Json.str⟩ ∧
    plugin_init (some sec) (some (.obj d)) = .error "KeyError: api" ∧
    plugin_init (some sec) (some (.obj [("api", .obj d2)])) =
      .error "KeyError: key" := by
  refine ⟨?_, ?_, ?_⟩
  · simp [plugin_init, readLocalKey_none]
  · simp [plugin_init, readLocalKey, hk, Json.get, hd]
  · simp [plugin_init, readLocalKey, hk, Json.get, hd2, lookupField]

/-- C2, witness: the theorem applied with no configured key, an empty
top-level YAML mapping and an `api` mapping without `key`. -/
theorem C2_witness :
    plugin_init (some ⟨"0.0.0.0", "5000", none⟩) none =
      .ok ⟨if strContainsHttp "0.0.0.0" then "0.0.0.0"
             else "http://" ++ "0.0.0.0", "5000",
           (none : Option String).map Json.str,
           (if strContainsHttp "0.0.0.0" then "0.0.0.0"
             else "http://" ++ "0.0.0.0") ++ ":" ++ "5000" ++ "/api/printer",
           (if strContainsHttp "0.0.0.0" then "0.0.0.0"
             else "http://" ++ "0.0.0.0") ++ ":" ++ "5000" ++ "/api/job",
           (none : Option String).map Json.str⟩ ∧
    plugin_init (some ⟨"0.0.0.0", "5000", none⟩) (some (.obj [])) =
      .error "KeyError: api" ∧
    plugin_init (some ⟨"0.0.0.0", "5000", none⟩)
        (some (.obj [("api", .obj [])])) = .error "KeyError: key" :=
  C2_local_key_fallback ⟨"0.0.0.0", "5000", none⟩ [] [] rfl rfl rfl

/-- C3: when both GETs succeed, the printer status is 200 and every
projected key is present, the poll record has no error field and its
fields come exactly from the payloads: `estimatedPrintTime` from
job.job.estimatedPrintTime, the two progress times from
job.progress.printTime and job.progress.printTimeLeft, `state` from
job.state, and `temperature` verbatim from the printer response. -/
theorem C3_success_projection (printer job : Response)
    (jjobV progV ept pt ptl st temp : Json)
    (hs : printer.status_code = 200)
    (h1 : job.body.get "job" = .ok jjobV)
    (h2 : jjobV.get "estimatedPrintTime" = .ok ept)
    (h3 : job.body.get "progress" = .ok progV)
    (h4 : progV.get "printTime" = .ok pt)
    (h5 : progV.get "printTimeLeft" = .ok ptl)
    (h6 : job.body.get "state" = .ok st)
    (h7 : printer.body.get "temperature" = .ok temp) :
    update (.ok printer) (.ok job) =
      .ok ⟨some st, none, some ept, some pt, some ptl, some temp⟩ := by
  simp [update, hs, h1, h2, h3, h4, h5, h6, h7, get_init_value]

/-- C3, witness: the theorem applied to concrete well-formed payloads. -/
theorem C3_witness :
    update (.ok printerOkResp) (.ok jobOkResp) =
      .ok ⟨some (.str "Printing"), none, some (.num 5000),
           some (.num 3661), some (.num 120),
           some (.obj [("tool0",
             .obj [("actual", .num (mkRat 1002 5)),
                   ("target", .num 210)])])⟩ :=
  C3_success_projection printerOkResp jobOkResp
    (.obj [("estimatedPrintTime", .num 5000)])
    (.obj [("printTime", .num 3661), ("printTimeLeft", .num 120)])
    (.num 5000) (.num 3661) (.num 120) (.str "Printing")
    (.obj [("tool0", .obj [("actual", .num (mkRat 1002 5)),
      ("target", .num 210)])])
    rfl rfl rfl rfl rfl rfl rfl rfl

/-- C4: when either GET raises a transport fault, the poll
short-circuits to a record whose state is the string `Error`, whose
error message (`Unable to connect: ` plus the exception text) is
non-empty, and which has no temperature or progress fields; this holds
whatever the other request would have returned. -/
theorem C4_transport_error (e : String) (jr : Except String Response)
    (p : Response) :
    update (.error e) jr =
      .ok ⟨some (.str "Error"), some ("Unable to connect: " ++ e),
           none, none, none, none⟩ ∧
    update (.ok p) (.error e) =
      .ok ⟨some (.str "Error"), some ("Unable to connect: " ++ e),
           none, none, none, none⟩ ∧
    ("Unable to connect: " ++ e) ≠ "" := by
  refine ⟨rfl, rfl, fun hemp => ?_⟩
  have hlen := congrArg String.length hemp
  simp [String.length_append] at hlen
  exact absurd hlen.1 (by decide)

/-- C4, witness: the theorem applied to a concrete connection fault. -/
theorem C4_witness :
    update (.error "connection refused") (.ok jobOkResp) =
      .ok ⟨some (.str "Error"),
           some ("Unable to connect: " ++ "connection refused"),
           none, none, none, none⟩ ∧
    update (.ok printerOkResp) (.error "connection refused") =
      .ok ⟨some (.str "Error"),
           some ("Unable to connect: " ++ "connection refused"),
           none, none, none, none⟩ ∧
    ("Unable to connect: " ++ "connection refused") ≠ "" :=
  C4_transport_error "connection refused" (.ok jobOkResp) printerOkResp

/-- C5: when both GETs complete but the printer status is not 200, the
record's state is the string `Error` and its error is the raw printer
response body text, with no other field set. -/
theorem C5_http_error_body (p j : Response) (hs : p.status_code ≠ 200) :
    update (.ok p) (.ok j) =
      .ok ⟨some (.str "Error"), some p.text, none, none, none, none⟩ := by
  simp [update, hs, get_init_value]

/-- C5, witness: printer status 500 with body `server down` yields
error `server down`. -/
theorem C5_witness :
    update (.ok ⟨500, "server down", .null⟩) (.ok jobOkResp) =
      .ok ⟨some (.str "Error"), some "server down",
           none, none, none, none⟩ :=
  C5_http_error_body ⟨500, "server down", .null⟩ jobOkResp (by decide)

/-- C6: on a record carrying an error, rendering yields exactly the
title item (`OCTOPRINT ` plus the state, padded to maxWidth - 11), a
line break, and the error text padded to the same width — two display
lines, with no temperature or progress rows after them. -/
theorem C6_error_two_lines (st : Stats) (sv : Json) (err : String)
    (w : Int) (hw : 11 ≤ w) (hst : st.state = some sv)
    (herr : st.error = some err) :
    msg_curse false (some st) w =
      .ok [CurseItem.line (padSpaces ("OCTOPRINT " ++ sv.pyStr)
             (w - 11).toNat) "TITLE",
           CurseItem.newline,
           CurseItem.line (padSpaces err (w - 11).toNat) "DEFAULT"] ∧
    (List.filter CurseItem.isTextLine
      [CurseItem.line (padSpaces ("OCTOPRINT " ++ sv.pyStr)
         (w - 11).toNat) "TITLE",
       CurseItem.newline,
       CurseItem.line (padSpaces err (w - 11).toNat) "DEFAULT"]).length
      = 2 := by
  have hnn : ¬ (w - 11 < 0) := by omega
  refine ⟨?_, by simp [CurseItem.isTextLine]⟩
  simp [msg_curse, hst, herr, padTo, hnn, curse_add_line, curse_new_line]

/-- C6, witness: the theorem applied to the HTTP-500 error record at
width 40. -/
theorem C6_witness :
    msg_curse false (some errStats500) 40 =
      .ok [CurseItem.line (padSpaces ("OCTOPRINT " ++
             Json.pyStr (.str "Error")) ((40 : Int) - 11).toNat) "TITLE",
           CurseItem.newline,
           CurseItem.line (padSpaces "server down"
             ((40 : Int) - 11).toNat) "DEFAULT"] ∧
    (List.filter CurseItem.isTextLine
      [CurseItem.line (padSpaces ("OCTOPRINT " ++
         Json.pyStr (.str "Error")) ((40 : Int) - 11).toNat) "TITLE",
       CurseItem.newline,
       CurseItem.line (padSpaces "server down"
         ((40 : Int) - 11).toNat) "DEFAULT"]).length = 2 :=
  C6_error_two_lines errStats500 (.str "Error") "server down" 40
    (by decide) rfl rfl

/-- C7: rendering the healthy record with tool0 at actual 200.4 and
target 210 at width 40 yields the title line, the header line, one tool
row showing `200°C` and `210°C` (floats truncated to ints), and the two
duration rows with seconds rendered as h:mm:ss; 3661 s renders as
`1:01:01`. -/
theorem C7_concrete_render :
    msg_curse false (some healthyStats) 40 =
      .ok [CurseItem.line (padSpaces "OCTOPRINT Printing" 29) "TITLE",
           CurseItem.newline,
           CurseItem.line (padSpaces "Temperature" 29) "DEFAULT",
           CurseItem.line "actual target" "DEFAULT",
           CurseItem.newline,
           CurseItem.line (padSpaces "tool0" 30) "DEFAULT",
           CurseItem.line "200°C  210°C" "DEFAULT",
           CurseItem.newline,
           CurseItem.line (padSpaces "Time passed:" 35) "DEFAULT",
           CurseItem.line "1:01:01" "DEFAULT",
           CurseItem.newline,
           CurseItem.line (padSpaces "Time left:" 35) "DEFAULT",
           CurseItem.line "0:02:00" "DEFAULT"] ∧
    strTimedelta 3661 = "1:01:01" :=
  ⟨rfl, rfl⟩

/-- C8: rendering is deterministic and stateless — a call leaves the
plugin state exactly as it was, and a second call on the resulting state
with the same width yields the same output. -/
theorem C8_render_deterministic (p : PluginView) (w : Int) :
    (msg_curse_call p w).1 =
      (msg_curse_call ((msg_curse_call p w).2) w).1 ∧
    (msg_curse_call p w).2 = p :=
  ⟨rfl, rfl⟩

/-- C8, witness: the theorem applied to a concrete plugin state and
width. -/
theorem C8_witness :
    (msg_curse_call ⟨false, some errStats500⟩ 40).1 =
      (msg_curse_call ((msg_curse_call ⟨false, some errStats500⟩ 40).2)
        40).1 ∧
    (msg_curse_call ⟨false, some errStats500⟩ 40).2 =
      ⟨false, some errStats500⟩ :=
  C8_render_deterministic ⟨false, some errStats500⟩ 40

/-- C9: only the printer status is inspected — when the printer endpoint
returns 200, the poll result does not depend on the job endpoint's HTTP
status code at all (the job body is projected regardless). -/
theorem C9_job_status_ignored (p j : Response) (s : Nat)
    (hs : p.status_code = 200) :
    update (.ok p) (.ok j) = update (.ok p) (.ok ⟨s, j.text, j.body⟩) := by
  simp [update, hs]

/-- C9, witness: the theorem applied with a job response whose status is
replaced by 500. -/
theorem C9_witness :
    update (.ok printerOkResp) (.ok jobOkResp) =
      update (.ok printerOkResp)
        (.ok ⟨500, jobOkResp.text, jobOkResp.body⟩) :=
  C9_job_status_ignored printerOkResp jobOkResp 500 rfl

/-- C10: rendering a non-empty, non-disabled record with a width below
11 gives the title format a negative width, so the call raises instead
of producing output. -/
theorem C10_narrow_width_raises (st : Stats) (w : Int) (hw : w < 11) :
    (msg_curse false (some st) w).isOk = false := by
  obtain ⟨stState, stErr, a, b, c, d⟩ := st
  have hneg : w - 11 < 0 := by omega
  cases stState with
  | none => simp [msg_curse, Except.isOk, Except.toBool]
  | some sv => simp [msg_curse, padTo, hneg, Except.isOk, Except.toBool]

/-- C10, witness: the theorem applied to the error record at width 10. -/
theorem C10_witness : (msg_curse false (some errStats500) 10).isOk = false :=
  C10_narrow_width_raises errStats500 10 (by decide)

end Octoprint
